import Mathlib

/-!
Shallow embedding of the lantmateriet-map backend server (`server.js`).

The server is an Express application with four API routes:
  * `GET /api/wmts`                    — authenticated tile proxy (token cache + one retry on 401)
  * `GET /api/pois`                    — Overpass POI proxy with a 5-minute in-memory cache
  * `POST /api/chat`                   — chat orchestrator (places block parsing + geocoding)
  * `GET /api/kommuner-sysselsattning` — SCB statistics / GADM boundary merge with two caches

Each route handler is embedded as a pure Lean function.  Mutable module state
(`cachedToken`/`tokenExpiry`, `poiCache`, `scbCache`, `geoCache`) is passed in and
returned explicitly.  Network calls (`fetch`) are modelled by oracle arguments: the
response the upstream would give is an input of the handler, and each handler also
returns how many upstream requests it performed, so that cache-hit behaviour is
observable.  JS numbers that are only passed through (coordinates, statistic values,
timestamps) are modelled as `Int`; `NaN`-valued expiry timestamps are modelled as
`Option Int` with `none` for `NaN` (every comparison against `NaN` is false).
-/

/-- A JavaScript object value as it occurs in the GeoJSON properties handled by the
server: a string, a number, or `null`. -/
inductive JsVal where
  | str : String → JsVal
  | num : Int → JsVal
  | null : JsVal
deriving DecidableEq

/-- A JavaScript object (or `Map`) with string keys, as an association list in
insertion order.  `objGet` is property read; `objSet` is property write. -/
abbrev Obj (α : Type) := List (String × α)

/-- Property read `m[k]` on a JS object (or `Map.get`): the first binding of the key. -/
def objGet (m : Obj α) (k : String) : Option α :=
  match m with
  | [] => none
  | (a, b) :: tl => if k = a then some b else objGet tl k

/-- Property assignment `m[k] = v` on a JS object or `Map.set`: an existing key keeps
its position and is overwritten (a JS object or `Map` has at most one binding per
key), a new key is appended. -/
def objSet (m : Obj α) (k : String) (v : α) : Obj α :=
  match m with
  | [] => [(k, v)]
  | (a, b) :: tl => if a = k then (k, v) :: tl else (a, b) :: objSet tl k v

/-! ## Credential cache (`getToken`, server.js lines 24-54) -/

/-- The response of the OAuth2 token endpoint as the server observes it:
the HTTP status, whether `res.json()` succeeds, and the `access_token` and
`expires_in` fields of the parsed body (absent fields are `none`). -/
structure TokenResp where
  status : Nat
  jsonOk : Bool
  access_token : Option String
  expires_in : Option Int
deriving DecidableEq

/-- The `res.ok` notion used by `fetch`: status in [200, 300). -/
def tokenRespOk (r : TokenResp) : Bool :=
  200 ≤ r.status && r.status < 300

/-- The module-level mutable credential state: `cachedToken` (initially `null`,
possibly `undefined` after a refresh whose body had no `access_token`) and
`tokenExpiry` (a number, or `none` for `NaN`). -/
structure TokenState where
  cachedToken : Option String
  tokenExpiry : Option Int
deriving DecidableEq

/-- JS truthiness of `cachedToken`: `null`/`undefined` and the empty string are falsy. -/
def tokenTruthy : Option String → Bool
  | none => false
  | some s => s ≠ ""

/-- The comparison `Date.now() < tokenExpiry`; false when the expiry is `NaN`. -/
def expiryGuard (now : Int) : Option Int → Bool
  | none => false
  | some e => now < e

/-- The cache guard `cachedToken && Date.now() < tokenExpiry` of `getToken`. -/
def tokenGuard (st : TokenState) (now : Int) : Bool :=
  tokenTruthy st.cachedToken && expiryGuard now st.tokenExpiry

/-- Embedding of `getToken()`.  Returns the value `return`ed (or the thrown message
when `res.json()` fails), the new credential state, and the number of token-endpoint
exchanges performed (0 on a cache hit, 1 otherwise).  Note that the source never
inspects the HTTP status of the exchange: it always parses the body and stores
`data.access_token` and `Date.now() + (data.expires_in - 300) * 1000`. -/
def getToken (st : TokenState) (now : Int) (resp : TokenResp) :
    Except String (Option String) × TokenState × Nat :=
  if tokenGuard st now then
    (Except.ok st.cachedToken, st, 0)
  else if resp.jsonOk then
    let st' : TokenState :=
      { cachedToken := resp.access_token
        tokenExpiry := resp.expires_in.map (fun l => now + (l - 300) * 1000) }
    (Except.ok resp.access_token, st', 1)
  else
    (Except.error "invalid token response body", st, 1)

/-! ## Tile proxy (`GET /api/wmts`, server.js lines 57-100) -/

/-- An upstream HTTP response as the proxy observes it. -/
structure HttpResp where
  status : Nat
  contentType : Option String
  body : String
deriving DecidableEq

/-- The `res.ok` notion for a WMTS upstream response. -/
def respOk (r : HttpResp) : Bool :=
  200 ≤ r.status && r.status < 300

/-- The HTTP response the server sends back for a tile request. -/
structure ApiResp where
  status : Nat
  contentType : Option String
  cacheControl : Option String
  body : String
deriving DecidableEq

/-- Result of one `GET /api/wmts` request: the response sent, the credential state
afterwards, the number of token-endpoint exchanges, and the number of upstream WMTS
fetches performed. -/
structure WmtsOutcome where
  resp : ApiResp
  tokenState : TokenState
  tokenFetches : Nat
  upstreamFetches : Nat
deriving DecidableEq

/-- Embedding of the `GET /api/wmts` handler.  `tok1` is the token-endpoint response
that the initial `getToken()` would observe if it misses the cache, `tok2` the one the
forced refresh after a 401 would observe; `up1` and `up2` are the first upstream
response and the retry response. -/
def wmtsHandler (st : TokenState) (now : Int) (tok1 tok2 : TokenResp)
    (up1 up2 : HttpResp) : WmtsOutcome :=
  match getToken st now tok1 with
  | (Except.error msg, st1, n1) => ⟨⟨500, none, none, msg⟩, st1, n1, 0⟩
  | (Except.ok _token, st1, n1) =>
    if up1.status = 401 then
      -- Token expired, force refresh and retry once
      let st2 : TokenState := ⟨none, some 0⟩
      match getToken st2 now tok2 with
      | (Except.error msg, st3, n2) => ⟨⟨500, none, none, msg⟩, st3, n1 + n2, 1⟩
      | (Except.ok _newToken, st3, n2) =>
        if !respOk up2 then
          ⟨⟨up2.status, none, none, "WMTS request failed"⟩, st3, n1 + n2, 2⟩
        else
          ⟨⟨200, some (up2.contentType.getD "application/octet-stream"),
              some "public, max-age=86400", up2.body⟩, st3, n1 + n2, 2⟩
    else if !respOk up1 then
      ⟨⟨up1.status, none, none, "WMTS request failed"⟩, st1, n1, 1⟩
    else
      ⟨⟨200, some (up1.contentType.getD "application/octet-stream"),
          some "public, max-age=86400", up1.body⟩, st1, n1, 1⟩

/-! ## POI cache and proxy (`GET /api/pois`, server.js lines 102-170) -/

/-- One entry of `POI_CATEGORIES`: the Overpass tag filter for a category. -/
structure TagFilter where
  key : String
  value : String
deriving DecidableEq

/-- The fixed category table `POI_CATEGORIES`. -/
def POI_CATEGORIES : Obj TagFilter :=
  [("restauranger", ⟨"amenity", "restaurant"⟩),
   ("kafeer", ⟨"amenity", "cafe"⟩),
   ("parker", ⟨"leisure", "park"⟩),
   ("laddstationer", ⟨"amenity", "charging_station"⟩),
   ("busshallplatser", ⟨"highway", "bus_stop"⟩)]

/-- An element of the Overpass reply (`data.elements[i]`); `tags` is absent (`none`)
when the element carries no `tags` object. -/
structure OverpassElement where
  id : Int
  lat : Int
  lon : Int
  tags : Option (Obj String)
deriving DecidableEq

/-- The canonical POI shape produced by the handler. -/
structure Poi where
  id : Int
  name : String
  lat : Int
  lon : Int
  tags : Obj String
deriving DecidableEq

/-- The per-element mapping: `name` is `el.tags?.name || ''`, `tags` is `el.tags || {}`. -/
def toPoi (el : OverpassElement) : Poi :=
  { id := el.id
    name :=
      match el.tags with
      | none => ""
      | some ts => (objGet ts "name").getD ""
    lat := el.lat
    lon := el.lon
    tags := el.tags.getD [] }

/-- The Overpass response as the handler observes it: HTTP status, whether
`res.json()` succeeds, and the `elements` field of the body (absent is `none`). -/
structure OverpassResp where
  status : Nat
  jsonOk : Bool
  elements : Option (List OverpassElement)
deriving DecidableEq

/-- A `poiCache` entry: fetch timestamp and mapped POI list. -/
structure PoiEntry where
  time : Int
  data : List Poi
deriving DecidableEq

/-- The `poiCache` map, keyed by the literal string `category ++ ":" ++ bbox`. -/
abbrev PoiCache := Obj PoiEntry

/-- `POI_CACHE_TTL = 5 * 60 * 1000` (5 minutes, in milliseconds). -/
def POI_CACHE_TTL : Int := 5 * 60 * 1000

/-- The staleness sweep after an insertion: delete every entry with
`now - v.time > POI_CACHE_TTL` while iterating the map. -/
def poiSweep (now : Int) (m : PoiCache) : PoiCache :=
  m.filter (fun p => !(now - p.2.time > POI_CACHE_TTL))

/-- The response of `GET /api/pois`. -/
inductive PoisResult where
  | badRequest (msg : String)
  | upstreamError
  | internalError
  | ok (pois : List Poi)
deriving DecidableEq

/-- Result of one `GET /api/pois` request: response, cache afterwards, and the number
of Overpass requests performed. -/
structure PoisOutcome where
  result : PoisResult
  cache : PoiCache
  upstreamCalls : Nat
deriving DecidableEq

/-- The lookup `POI_CATEGORIES[category]` (an absent query parameter reads the
`"undefined"` property, which the table does not have). -/
def lookupCategory : Option String → Option TagFilter
  | none => none
  | some c => objGet POI_CATEGORIES c

/-- Embedding of the `GET /api/pois` handler.  `up` is the Overpass response the
handler would observe if it misses the cache. -/
def poisHandler (category bbox : Option String) (cache : PoiCache) (now : Int)
    (up : OverpassResp) : PoisOutcome :=
  match lookupCategory category with
  | none =>
    ⟨.badRequest ("Unknown category. Valid: restauranger, kafeer, parker, " ++
        "laddstationer, busshallplatser"), cache, 0⟩
  | some _cat =>
    match bbox with
    | none => ⟨.badRequest "bbox required (south,west,north,east)", cache, 0⟩
    | some bb =>
      if bb = "" then
        ⟨.badRequest "bbox required (south,west,north,east)", cache, 0⟩
      else
        let cacheKey := category.getD "" ++ ":" ++ bb
        let cachedFresh : Option (List Poi) :=
          match objGet cache cacheKey with
          | some e => if now - e.time < POI_CACHE_TTL then some e.data else none
          | none => none
        match cachedFresh with
        | some d => ⟨.ok d, cache, 0⟩
        | none =>
          if !(200 ≤ up.status && up.status < 300) then
            ⟨.upstreamError, cache, 1⟩
          else if !up.jsonOk then
            ⟨.internalError, cache, 1⟩
          else
            let pois := (up.elements.getD []).map toPoi
            let cache1 := objSet cache cacheKey ⟨now, pois⟩
            let cache2 := if cache1.length > 200 then poiSweep now cache1 else cache1
            ⟨.ok pois, cache2, 1⟩

/-! ## Chat orchestrator (`POST /api/chat`, server.js lines 172-272)

The reply parsing uses the regular expressions
`/(three backticks)places\s*\n([\s\S]*?)\n(three backticks)/` (match, with capture) and
the identical pattern without the capture group (replace).  They are embedded
concretely below over `List Char`: leftmost match; the greedy `\s*\n` takes the run of
whitespace after the opening tag up to its last newline; the lazy `[\s\S]*?` ends at
the first subsequent newline-plus-three-backticks. -/

/-- JS `\s` (restricted to the character classes occurring in the handled text). -/
def isJsWs (c : Char) : Bool :=
  c = ' ' || c = '\t' || c = '\n' || c = '\r' || c = '\x0c' || c = '\x0b'

/-- First index at which `pat` occurs as a contiguous sublist of `s`. -/
def findSubIdx (pat : List Char) : List Char → Option Nat
  | [] => if pat = [] then some 0 else none
  | c :: tl =>
    if pat.isPrefixOf (c :: tl) then some 0
    else (findSubIdx pat tl).map (· + 1)

/-- Index of the last newline of a character list, if any. -/
def lastNewline : List Char → Option Nat
  | [] => none
  | c :: tl =>
    match lastNewline tl with
    | some k => some (k + 1)
    | none => if c = '\n' then some 0 else none

/-- The opening tag of the places block: three backticks then `places`. -/
def placesOpen : List Char := '`' :: '`' :: '`' :: "places".data

/-- A newline followed by the closing three backticks. -/
def placesClose : List Char := '\n' :: '`' :: '`' :: '`' :: []

/-- Attempt the places-block pattern anchored at the head of `s`; on success returns
the captured body and the total length of the match. -/
def tryPlacesAt (s : List Char) : Option (List Char × Nat) :=
  if placesOpen.isPrefixOf s then
    let rest := s.drop 9
    let wsRun := rest.takeWhile isJsWs
    match lastNewline wsRun with
    | none => none
    | some j =>
      let afterNl := rest.drop (j + 1)
      match findSubIdx placesClose afterNl with
      | none => none
      | some p => some (afterNl.take p, 9 + (j + 1) + p + 4)
  else none

/-- Leftmost match of the places-block pattern: start index, captured body, length. -/
def findPlacesBlock : List Char → Option (Nat × List Char × Nat)
  | [] => none
  | c :: tl =>
    match tryPlacesAt (c :: tl) with
    | some (body, len) => some (0, body, len)
    | none => (findPlacesBlock tl).map (fun r => (r.1 + 1, r.2.1, r.2.2))

/-- The combination of `content.match(pattern)` and `content.replace(pattern, '')`:
the captured body and the content with the first match removed. -/
def stripPlacesBlock (s : List Char) : Option (List Char × List Char) :=
  (findPlacesBlock s).map (fun r => (r.2.1, s.take r.1 ++ s.drop (r.1 + r.2.2)))

/-- JS `String.prototype.trim` (over the modelled whitespace set). -/
def jsTrim (s : List Char) : List Char :=
  ((s.dropWhile isJsWs).reverse.dropWhile isJsWs).reverse

/-- A place as parsed from the model's places block. -/
structure Place where
  name : String
  lat : Int
  lon : Int
  description : String
deriving DecidableEq

/-- The outcome of the per-place Nominatim lookup: the fetch or its JSON parse threw,
the result array was empty (or not an array), or the first hit's parsed coordinates. -/
inductive GeoOutcome where
  | threw
  | noMatch
  | found (lat lon : Int)
deriving DecidableEq

/-- The per-place correction: a geocoder hit overwrites `lat`/`lon`, anything else
keeps the model-provided place unchanged. -/
def correctPlace (p : Place) (g : GeoOutcome) : Place :=
  match g with
  | .found la lo => { p with lat := la, lon := lo }
  | _ => p

/-- Indexed map; models `Promise.all(places.map(...))`, whose result array is in the
original order with the i-th slot holding the i-th lookup's result. -/
def mapWithIdx (f : Nat → α → β) : Nat → List α → List β
  | _, [] => []
  | i, a :: as => f i a :: mapWithIdx f (i + 1) as

/-- The chat-completion upstream response as the handler observes it: HTTP status,
whether `response.json()` succeeds, and `data.choices?.[0]?.message?.content`
(absent is `none`, defaulted to the empty string). -/
structure ChatUpstream where
  status : Nat
  jsonOk : Bool
  content : Option String
deriving DecidableEq

/-- The response of `POST /api/chat`. -/
inductive ChatResult where
  | badRequest (msg : String)
  | configError
  | upstreamError
  | internalError
  | ok (text : String) (places : List Place)
deriving DecidableEq

/-- Embedding of the `POST /api/chat` handler.  `parsePlaces` models `JSON.parse`
applied to the captured block body (`none` when it throws, otherwise the parsed place
array); `geo` models the per-place Nominatim lookups, indexed by position. -/
def chatHandler (message : Option String) (apiKey : Option String)
    (up : ChatUpstream) (parsePlaces : String → Option (List Place))
    (geo : Nat → GeoOutcome) : ChatResult :=
  match message with
  | none => .badRequest "message required"
  | some m =>
    if m = "" then .badRequest "message required"
    else
      match apiKey with
      | none => .configError
      | some k =>
        if k = "" || k = "your-openrouter-api-key-here" then .configError
        else if !(200 ≤ up.status && up.status < 300) then .upstreamError
        else if !up.jsonOk then .internalError
        else
          let content := up.content.getD ""
          match stripPlacesBlock content.data with
          | none => .ok content []
          | some (body, stripped) =>
            let places := (parsePlaces (String.mk body)).getD []
            let text := String.mk (jsTrim stripped)
            if places.length > 0 then
              .ok text (mapWithIdx (fun i p => correctPlace p (geo i)) 0 places)
            else
              .ok text places

/-! ## Statistics merge (`GET /api/kommuner-sysselsattning`, server.js lines 27-34
and 274-384) -/

/-- `SCB_TTL = 24 * 60 * 60 * 1000` (24 hours, in milliseconds). -/
def SCB_TTL : Int := 24 * 60 * 60 * 1000

/-- `GEO_TTL = 7 * 24 * 60 * 60 * 1000` (7 days, in milliseconds). -/
def GEO_TTL : Int := 7 * 24 * 60 * 60 * 1000

/-- One variable of the SCB metadata reply. -/
structure ScbVariable where
  code : String
  values : List String
  valueTexts : List String
deriving DecidableEq

/-- The SCB metadata response: HTTP status, whether `res.json()` succeeds, and the
`variables` array of the body (named `vars` here because `variables` is reserved). -/
structure ScbMetaResp where
  status : Nat
  jsonOk : Bool
  vars : List ScbVariable
deriving DecidableEq

/-- One row of the SCB data reply: `row.key[0]` and `parseFloat(row.values[0])`
(`none` models `NaN`, i.e. a non-numeric value). -/
structure ScbRow where
  key : String
  value : Option Int
deriving DecidableEq

/-- The SCB data response: HTTP status, whether `res.json()` succeeds, and the `data`
array of the body (absent is `none`, defaulted to the empty array). -/
structure ScbDataResp where
  status : Nat
  jsonOk : Bool
  rows : Option (List ScbRow)
deriving DecidableEq

/-- The value stored in `scbCache.data`. -/
structure ScbData where
  nameToKod : Obj String
  kodToValue : Obj Int
deriving DecidableEq

/-- The GADM GeoJSON feature: its `type` field, an opaque `geometry` payload, and its
`properties` object.  The merge never inspects `geometry`, so it is kept opaque. -/
structure Feature where
  ftype : String
  geometry : String
  properties : Obj JsVal
deriving DecidableEq

/-- A GeoJSON feature collection. -/
structure FeatureCollection where
  ctype : String
  features : List Feature
deriving DecidableEq

/-- The GADM response: HTTP status, whether `res.json()` succeeds, and the body. -/
structure GeoResp where
  status : Nat
  jsonOk : Bool
  body : FeatureCollection
deriving DecidableEq

/-- The combined mutable cache state of the merge endpoint (`scbCache`, `geoCache`). -/
structure MergeState where
  scbData : Option ScbData
  scbTs : Int
  geoData : Option FeatureCollection
  geoTs : Int
deriving DecidableEq

/-- The test of the regular expression `/^\d\x7b4\x7d$/`: exactly four digits. -/
def is4DigitCode (s : String) : Bool :=
  s.length = 4 && s.data.all Char.isDigit

/-- The `regionVar.values.forEach((kod, i) => ...)` loop building `nameToKod`: a
4-digit code is recorded under `regionVar.valueTexts[i]` (reading past the end of
`valueTexts` yields the JS property name `"undefined"`). -/
def buildNameToKodGo (valueTexts : List String) (i : Nat) (acc : Obj String) :
    List String → Obj String
  | [] => acc
  | kod :: rest =>
    if is4DigitCode kod then
      buildNameToKodGo valueTexts (i + 1) (objSet acc (valueTexts.getD i "undefined") kod) rest
    else
      buildNameToKodGo valueTexts (i + 1) acc rest

/-- The `nameToKod` mapping built from the Region variable of the SCB metadata. -/
def buildNameToKod (values valueTexts : List String) : Obj String :=
  buildNameToKodGo valueTexts 0 [] values

/-- The loop over `scbData.data` building `kodToValue`; rows whose value parsed to
`NaN` are dropped. -/
def buildKodToValue (rows : List ScbRow) : Obj Int :=
  rows.foldl
    (fun acc row =>
      match row.value with
      | some v => objSet acc row.key v
      | none => acc)
    []

/-- The SCB refresh: metadata fetch, `Region` variable lookup, data fetch.  Returns
the built `ScbData` (or the thrown message) together with the number of SCB requests
performed. -/
def refreshScb (meta : ScbMetaResp) (dataR : ScbDataResp) :
    Except String ScbData × Nat :=
  if !(200 ≤ meta.status && meta.status < 300) then
    (Except.error "SCB metadata HTTP error", 1)
  else if !meta.jsonOk then
    (Except.error "invalid SCB metadata body", 1)
  else
    match meta.vars.find? (fun v => v.code = "Region") with
    | none => (Except.error "SCB: Region variable not found in metadata", 1)
    | some regionVar =>
      if !(200 ≤ dataR.status && dataR.status < 300) then
        (Except.error "SCB data HTTP error", 2)
      else if !dataR.jsonOk then
        (Except.error "invalid SCB data body", 2)
      else
        (Except.ok
          ⟨buildNameToKod regionVar.values regionVar.valueTexts,
           buildKodToValue (dataR.rows.getD [])⟩, 2)

/-- `String.prototype.toLowerCase` restricted to the Latin letters occurring in the
handled municipality names (ASCII plus the Swedish letters). -/
def jsLowerChar (c : Char) : Char :=
  if c = 'Å' then 'å'
  else if c = 'Ä' then 'ä'
  else if c = 'Ö' then 'ö'
  else if c = 'É' then 'é'
  else c.toLower

/-- Lower-casing of a whole string, character by character. -/
def jsToLower (s : String) : String :=
  String.mk (s.data.map jsLowerChar)

/-- The case-insensitive fallback map: `nameLower[name.toLowerCase()] = kod` for every
entry of `nameToKod`, in order. -/
def buildNameLower (nameToKod : Obj String) : Obj String :=
  nameToKod.foldl (fun acc p => objSet acc (jsToLower p.1) p.2) []

/-- The read `f.properties.NAME_2 || ''`. -/
def propNAME2 (f : Feature) : String :=
  match objGet f.properties "NAME_2" with
  | some (JsVal.str s) => s
  | _ => ""

/-- The filter `f.properties.ENGTYPE_2 === 'Municipality'`. -/
def isMunicipality (f : Feature) : Bool :=
  objGet f.properties "ENGTYPE_2" = some (JsVal.str "Municipality")

/-- JS `a || b` on possibly-missing strings: a present non-empty string wins,
otherwise the right operand is used. -/
def jsOrStr (a b : Option String) : Option String :=
  match a with
  | some s => if s = "" then b else some s
  | none => b

/-- The resolution `nameToKod[name2] || nameLower[name2.toLowerCase()] || null`. -/
def resolveKod (nameToKod nameLower : Obj String) (name2 : String) : Option String :=
  jsOrStr (objGet nameToKod name2) (jsOrStr (objGet nameLower (jsToLower name2)) none)

/-- Encoding of a nullable string property value. -/
def optStrVal : Option String → JsVal
  | some s => .str s
  | none => .null

/-- Encoding of a nullable numeric property value. -/
def optIntVal : Option Int → JsVal
  | some n => .num n
  | none => .null

/-- The per-feature merge: spread the original feature, spread its properties, then
assign `kod` and `sysselsattning` (`kod ? (kodToValue[kod] ?? null) : null`). -/
def mergeFeature (nameToKod nameLower : Obj String) (kodToValue : Obj Int)
    (f : Feature) : Feature :=
  let name2 := propNAME2 f
  let kod := resolveKod nameToKod nameLower name2
  let syss : Option Int :=
    match kod with
    | some k => objGet kodToValue k
    | none => none
  { f with
      properties :=
        objSet (objSet f.properties "kod" (optStrVal kod)) "sysselsattning"
          (optIntVal syss) }

/-- The merge step: filter to municipality features, then enrich each. -/
def mergeFeatures (d : ScbData) (geo : FeatureCollection) : List Feature :=
  let nameLower := buildNameLower d.nameToKod
  (geo.features.filter isMunicipality).map
    (mergeFeature d.nameToKod nameLower d.kodToValue)

/-- The response of `GET /api/kommuner-sysselsattning`. -/
inductive MergeResult where
  | ok (fc : FeatureCollection)
  | err (msg : String)
deriving DecidableEq

/-- Result of one merge request: response, cache state afterwards, and the numbers of
SCB and GADM requests performed. -/
structure MergeOutcome where
  result : MergeResult
  state : MergeState
  scbCalls : Nat
  geoCalls : Nat
deriving DecidableEq

/-- The SCB step of the handler when the cache misses or is stale. -/
def scbRefreshStep (st : MergeState) (now : Int) (meta : ScbMetaResp)
    (dataR : ScbDataResp) : Except String ScbData × MergeState × Nat :=
  match refreshScb meta dataR with
  | (Except.ok d, n) => (Except.ok d, { st with scbData := some d, scbTs := now }, n)
  | (Except.error e, n) => (Except.error e, st, n)

/-- The GADM step of the handler when the cache misses or is stale. -/
def geoRefreshStep (st : MergeState) (now : Int) (geoR : GeoResp) :
    Except String FeatureCollection × MergeState × Nat :=
  if !(200 ≤ geoR.status && geoR.status < 300) then
    (Except.error "GADM HTTP error", st, 1)
  else if !geoR.jsonOk then
    (Except.error "invalid GADM body", st, 1)
  else
    (Except.ok geoR.body, { st with geoData := some geoR.body, geoTs := now }, 1)

/-- Step 1 of the handler: read `scbCache` if present and fresh, otherwise refresh. -/
def scbStepFn (st : MergeState) (now : Int) (meta : ScbMetaResp)
    (dataR : ScbDataResp) : Except String ScbData × MergeState × Nat :=
  match st.scbData with
  | some d =>
    if now - st.scbTs < SCB_TTL then (Except.ok d, st, 0)
    else scbRefreshStep st now meta dataR
  | none => scbRefreshStep st now meta dataR

/-- Step 2 of the handler: read `geoCache` if present and fresh, otherwise refresh. -/
def geoStepFn (st : MergeState) (now : Int) (geoR : GeoResp) :
    Except String FeatureCollection × MergeState × Nat :=
  match st.geoData with
  | some g =>
    if now - st.geoTs < GEO_TTL then (Except.ok g, st, 0)
    else geoRefreshStep st now geoR
  | none => geoRefreshStep st now geoR

/-- Embedding of the `GET /api/kommuner-sysselsattning` handler.  `meta`, `dataR` and
`geoR` are the responses the upstreams would give if the respective cache misses. -/
def mergeHandler (st : MergeState) (now : Int) (meta : ScbMetaResp)
    (dataR : ScbDataResp) (geoR : GeoResp) : MergeOutcome :=
  match scbStepFn st now meta dataR with
  | (Except.error e, st1, n1) => ⟨.err e, st1, n1, 0⟩
  | (Except.ok d, st1, n1) =>
    match geoStepFn st1 now geoR with
    | (Except.error e, st2, n2) => ⟨.err e, st2, n1, n2⟩
    | (Except.ok g, st2, n2) =>
      ⟨.ok ⟨"FeatureCollection", mergeFeatures d g⟩, st2, n1, n2⟩


/-! ## Helper lemmas about `objGet`, `objSet` and `mapWithIdx` -/

theorem objGet_objSet_self (m : Obj α) (k : String) (v : α) :
    objGet (objSet m k v) k = some v := by
  induction m with
  | nil => simp [objSet, objGet]
  | cons p tl ih =>
    obtain ⟨a, b⟩ := p
    by_cases ha : a = k
    · simp [objSet, ha, objGet]
    · have ha' : ¬ k = a := fun hh => ha hh.symm
      simp [objSet, ha, objGet, ha', ih]

theorem objGet_objSet_ne (m : Obj α) (k k' : String) (v : α) (hk : k' ≠ k) :
    objGet (objSet m k v) k' = objGet m k' := by
  induction m with
  | nil => simp [objSet, objGet, hk]
  | cons p tl ih =>
    obtain ⟨a, b⟩ := p
    by_cases ha : a = k
    · subst ha
      simp [objSet, objGet, hk, ih]
    · by_cases hb : k' = a
      · simp [objSet, ha, objGet, hb]
      · simp [objSet, ha, objGet, hb, ih]

theorem objGet_poiSweep_objSet (m : PoiCache) (k : String) (now : Int)
    (d : List Poi) :
    objGet (poiSweep now (objSet m k ⟨now, d⟩)) k = some ⟨now, d⟩ := by
  induction m with
  | nil => simp [objSet, poiSweep, List.filter, POI_CACHE_TTL, objGet]
  | cons p tl ih =>
    obtain ⟨a, b⟩ := p
    by_cases ha : a = k
    · simp [objSet, ha, poiSweep, List.filter_cons, POI_CACHE_TTL, objGet]
    · have ha' : ¬ k = a := fun hh => ha hh.symm
      unfold poiSweep at ih ⊢
      simp only [objSet, ha, if_neg, not_false_iff, List.filter_cons]
      by_cases hkeep : (!(now - b.time > POI_CACHE_TTL)) = true
      · simp only [hkeep, if_pos, objGet, ha', not_false_iff, if_neg]
        exact ih
      · simp only [Bool.not_eq_true] at hkeep
        simp only [hkeep, Bool.false_eq_true, if_neg, not_false_iff]
        exact ih

theorem length_mapWithIdx (f : Nat → α → β) (n : Nat) (l : List α) :
    (mapWithIdx f n l).length = l.length := by
  induction l generalizing n with
  | nil => rfl
  | cons a tl ih => simp [mapWithIdx, ih]

theorem getElem?_mapWithIdx (f : Nat → α → β) (n : Nat) (l : List α) (i : Nat) :
    (mapWithIdx f n l)[i]? = (l[i]?).map (f (n + i)) := by
  induction l generalizing n i with
  | nil => simp [mapWithIdx]
  | cons a tl ih =>
    cases i with
    | zero => simp [mapWithIdx]
    | succ j =>
      simp only [mapWithIdx, List.getElem?_cons_succ]
      rw [ih (n + 1) j]
      have harith : n + 1 + j = n + (j + 1) := by omega
      rw [harith]

/-! ## Claim theorems -/

/-- Auxiliary: any `getToken` call that misses the cache performs exactly one
token-endpoint exchange, whatever the endpoint answers. -/
theorem getToken_exchanges_of_miss (st : TokenState) (t : Int) (r : TokenResp)
    (h : tokenGuard st t = false) : (getToken st t r).2.2 = 1 := by
  unfold getToken
  rw [h]
  simp only [Bool.false_eq_true, if_false]
  split <;> rfl

/-- C1, counterexample: it is not the case that every `getToken` call whose
token-endpoint exchange returns a non-success HTTP status fails with an error
surfaced to the caller — the source never checks the exchange's status, so a 400
response with a JSON error body (no `access_token`) makes `getToken` return
normally. -/
theorem getToken_nonSuccess_not_error :
    ¬ (∀ (st : TokenState) (now : Int) (resp : TokenResp),
        tokenRespOk resp = false →
        ∃ msg, (getToken st now resp).1 = Except.error msg) := by
  intro h
  obtain ⟨msg, hmsg⟩ := h ⟨none, some 0⟩ 1000 ⟨400, true, none, none⟩ (by decide)
  have hok : (getToken ⟨none, some 0⟩ 1000 ⟨400, true, none, none⟩).1 =
      Except.ok none := rfl
  rw [hok] at hmsg
  exact Except.noConfusion hmsg

/-- C1, amended: when the token-endpoint exchange returns a non-success status whose
body is JSON without an `access_token`, `getToken` does not fail: it returns no token
(`undefined`) and caches it, but because the cached value is falsy, every subsequent
call performs a fresh exchange instead of serving the bad result. -/
theorem getToken_nonSuccess_behavior (st : TokenState) (now : Int) (resp : TokenResp)
    (hmiss : tokenGuard st now = false)
    (hfail : tokenRespOk resp = false)
    (hjson : resp.jsonOk = true)
    (hnotok : resp.access_token = none) :
    (getToken st now resp).1 = Except.ok none ∧
    (getToken st now resp).2.1.cachedToken = none ∧
    ∀ (t2 : Int) (r2 : TokenResp),
      (getToken (getToken st now resp).2.1 t2 r2).2.2 = 1 := by
  have hrun : getToken st now resp =
      (Except.ok resp.access_token,
       ⟨resp.access_token, resp.expires_in.map (fun l => now + (l - 300) * 1000)⟩,
       1) := by
    unfold getToken
    rw [hmiss, hjson]
    simp
  refine ⟨by rw [hrun, hnotok], by rw [hrun]; simpa using hnotok, ?_⟩
  intro t2 r2
  apply getToken_exchanges_of_miss
  rw [hrun]
  simp [tokenGuard, tokenTruthy, hnotok]

/-- C1, witness for the amended theorem at a concrete input. -/
theorem getToken_nonSuccess_behavior_witness :
    (getToken ⟨none, some 0⟩ 1000 ⟨400, true, none, none⟩).1 = Except.ok none ∧
    (getToken ⟨none, some 0⟩ 1000 ⟨400, true, none, none⟩).2.1.cachedToken = none ∧
    (getToken (getToken ⟨none, some 0⟩ 1000 ⟨400, true, none, none⟩).2.1 2000
        ⟨200, true, some "t2", some 3600⟩).2.2 = 1 := by
  have h := getToken_nonSuccess_behavior ⟨none, some 0⟩ 1000 ⟨400, true, none, none⟩
    (by decide) (by decide) rfl rfl
  exact ⟨h.1, h.2.1, h.2.2 2000 ⟨200, true, some "t2", some 3600⟩⟩

/-- C6: after a successful refresh (one exchange), the credential cache stores
`expiresAt = now + (lifetime - 300 s)` (in milliseconds, with `lifetime` the
`expires_in` the endpoint returned); every `getToken` call strictly before that
instant returns the cached token with no exchange, and any call at or after it
performs exactly one exchange. -/
theorem tokenCache_refresh_and_reuse (st : TokenState) (now : Int)
    (resp : TokenResp) (t : String) (lifetime : Int)
    (hmiss : tokenGuard st now = false)
    (hjson : resp.jsonOk = true)
    (htok : resp.access_token = some t) (ht : t ≠ "")
    (hlife : resp.expires_in = some lifetime) :
    (getToken st now resp).2.2 = 1 ∧
    (getToken st now resp).2.1 =
      ⟨some t, some (now + (lifetime - 300) * 1000)⟩ ∧
    (∀ (t2 : Int) (r2 : TokenResp), t2 < now + (lifetime - 300) * 1000 →
      getToken (getToken st now resp).2.1 t2 r2 =
        (Except.ok (some t), ⟨some t, some (now + (lifetime - 300) * 1000)⟩, 0)) ∧
    (∀ (t2 : Int) (r2 : TokenResp), now + (lifetime - 300) * 1000 ≤ t2 →
      (getToken (getToken st now resp).2.1 t2 r2).2.2 = 1) := by
  have hrun : getToken st now resp =
      (Except.ok (some t), ⟨some t, some (now + (lifetime - 300) * 1000)⟩, 1) := by
    unfold getToken
    rw [hmiss, hjson, htok, hlife]
    simp
  refine ⟨by rw [hrun], by rw [hrun], ?_, ?_⟩
  · intro t2 r2 hlt
    rw [hrun]
    unfold getToken
    have hguard : tokenGuard ⟨some t, some (now + (lifetime - 300) * 1000)⟩ t2 = true := by
      simp [tokenGuard, tokenTruthy, expiryGuard, ht, hlt]
    rw [hguard]
    simp
  · intro t2 r2 hge
    rw [hrun]
    apply getToken_exchanges_of_miss
    simp [tokenGuard, tokenTruthy, expiryGuard, ht]
    omega

/-- C6, witness: concrete refresh at time 0 with a 3600-second lifetime, reuse at
time 3299999, refresh again at time 3300000. -/
theorem tokenCache_refresh_and_reuse_witness :
    (getToken ⟨none, some 0⟩ 0 ⟨200, true, some "tok", some 3600⟩).2.2 = 1 ∧
    (getToken ⟨none, some 0⟩ 0 ⟨200, true, some "tok", some 3600⟩).2.1 =
      ⟨some "tok", some (0 + (3600 - 300) * 1000)⟩ ∧
    getToken (getToken ⟨none, some 0⟩ 0 ⟨200, true, some "tok", some 3600⟩).2.1
        3299999 ⟨500, false, none, none⟩ =
      (Except.ok (some "tok"), ⟨some "tok", some (0 + (3600 - 300) * 1000)⟩, 0) ∧
    (getToken (getToken ⟨none, some 0⟩ 0 ⟨200, true, some "tok", some 3600⟩).2.1
        3300000 ⟨200, true, some "tok2", some 3600⟩).2.2 = 1 := by
  have h := tokenCache_refresh_and_reuse ⟨none, some 0⟩ 0
    ⟨200, true, some "tok", some 3600⟩ "tok" 3600 (by decide) rfl rfl (by decide) rfl
  exact ⟨h.1, h.2.1, h.2.2.1 3299999 ⟨500, false, none, none⟩ (by norm_num),
    h.2.2.2 3300000 ⟨200, true, some "tok2", some 3600⟩ (by norm_num)⟩

/-- C3: on a warm token cache, a tile request whose first upstream response is 401
invalidates the token, performs exactly one token refresh and exactly one upstream
retry (two upstream fetches in total, never more): a successful retry yields the 200
body with the cache header, and a non-success retry of any status fails with that
status and the generic failure body. -/
theorem wmts401_refresh_retry_once (st : TokenState) (now : Int)
    (tok1 tok2 : TokenResp) (up1 up2 : HttpResp)
    (hwarm : tokenGuard st now = true)
    (h401 : up1.status = 401)
    (hjson2 : tok2.jsonOk = true) :
    (wmtsHandler st now tok1 tok2 up1 up2).tokenFetches = 1 ∧
    (wmtsHandler st now tok1 tok2 up1 up2).upstreamFetches = 2 ∧
    (wmtsHandler st now tok1 tok2 up1 up2).tokenState.cachedToken =
      tok2.access_token ∧
    (respOk up2 = true →
      (wmtsHandler st now tok1 tok2 up1 up2).resp =
        ⟨200, some (up2.contentType.getD "application/octet-stream"),
         some "public, max-age=86400", up2.body⟩) ∧
    (respOk up2 = false →
      (wmtsHandler st now tok1 tok2 up1 up2).resp =
        ⟨up2.status, none, none, "WMTS request failed"⟩) := by
  have h1 : getToken st now tok1 = (Except.ok st.cachedToken, st, 0) := by
    unfold getToken
    rw [hwarm]
    simp
  have h2 : getToken ⟨none, some 0⟩ now tok2 =
      (Except.ok tok2.access_token,
       ⟨tok2.access_token, tok2.expires_in.map (fun l => now + (l - 300) * 1000)⟩,
       1) := by
    unfold getToken
    rw [hjson2]
    simp [tokenGuard, tokenTruthy]
  by_cases hok : respOk up2 = true
  · simp [wmtsHandler, h1, h401, h2, hok]
  · simp only [Bool.not_eq_true] at hok
    simp [wmtsHandler, h1, h401, h2, hok]

/-- C3, witness: warm cache, upstream answers 401 then 200. -/
theorem wmts401_refresh_retry_once_witness :
    (wmtsHandler ⟨some "tok", some 9000⟩ 1000 ⟨200, true, some "a", some 3600⟩
        ⟨200, true, some "b", some 3600⟩ ⟨401, none, ""⟩
        ⟨200, some "image/png", "tile-bytes"⟩).tokenFetches = 1 ∧
    (wmtsHandler ⟨some "tok", some 9000⟩ 1000 ⟨200, true, some "a", some 3600⟩
        ⟨200, true, some "b", some 3600⟩ ⟨401, none, ""⟩
        ⟨200, some "image/png", "tile-bytes"⟩).upstreamFetches = 2 ∧
    (wmtsHandler ⟨some "tok", some 9000⟩ 1000 ⟨200, true, some "a", some 3600⟩
        ⟨200, true, some "b", some 3600⟩ ⟨401, none, ""⟩
        ⟨200, some "image/png", "tile-bytes"⟩).resp =
      ⟨200, some "image/png", some "public, max-age=86400", "tile-bytes"⟩ := by
  have h := wmts401_refresh_retry_once ⟨some "tok", some 9000⟩ 1000
    ⟨200, true, some "a", some 3600⟩ ⟨200, true, some "b", some 3600⟩
    ⟨401, none, ""⟩ ⟨200, some "image/png", "tile-bytes"⟩
    (by decide) rfl rfl
  exact ⟨h.1, h.2.1, h.2.2.2.1 (by decide)⟩

/-- Auxiliary: reduction of the chat handler on the successful upstream path when the
reply contains a places block. -/
theorem chatHandler_blockPath (m k : String) (up : ChatUpstream)
    (parsePlaces : String → Option (List Place)) (geo : Nat → GeoOutcome)
    (c : String) (body stripped : List Char)
    (hm : m ≠ "") (hk1 : k ≠ "") (hk2 : k ≠ "your-openrouter-api-key-here")
    (hstatus : (200 ≤ up.status && up.status < 300) = true)
    (hjson : up.jsonOk = true)
    (hc : up.content = some c)
    (hmatch : stripPlacesBlock c.data = some (body, stripped)) :
    chatHandler (some m) (some k) up parsePlaces geo =
      (if ((parsePlaces (String.mk body)).getD []).length > 0 then
        ChatResult.ok (String.mk (jsTrim stripped))
          (mapWithIdx (fun i p => correctPlace p (geo i)) 0
            ((parsePlaces (String.mk body)).getD []))
      else
        ChatResult.ok (String.mk (jsTrim stripped))
          ((parsePlaces (String.mk body)).getD [])) := by
  simp [chatHandler, hm, hk1, hk2, hstatus, hjson, hc, hmatch]

/-- C7: a chat request whose model reply contains a fenced places block that fails to
parse as JSON still succeeds: the place list is empty, the block is stripped from the
returned text, and the trimmed natural-language text is returned. -/
theorem chatParseFailure_keepsText (m k : String) (up : ChatUpstream)
    (parsePlaces : String → Option (List Place)) (geo : Nat → GeoOutcome)
    (c : String) (body stripped : List Char)
    (hm : m ≠ "") (hk1 : k ≠ "") (hk2 : k ≠ "your-openrouter-api-key-here")
    (hstatus : (200 ≤ up.status && up.status < 300) = true)
    (hjson : up.jsonOk = true)
    (hc : up.content = some c)
    (hmatch : stripPlacesBlock c.data = some (body, stripped))
    (hparse : parsePlaces (String.mk body) = none) :
    chatHandler (some m) (some k) up parsePlaces geo =
      ChatResult.ok (String.mk (jsTrim stripped)) [] := by
  rw [chatHandler_blockPath m k up parsePlaces geo c body stripped hm hk1 hk2
    hstatus hjson hc hmatch]
  rw [hparse]
  simp

/-- C7, witness: concrete reply whose places block is not valid JSON. -/
theorem chatParseFailure_keepsText_witness :
    chatHandler (some "hej") (some "key")
      ⟨200, true, some "Hej!\n```places\n[bad json\n```\nSlut"⟩
      (fun _ => none) (fun _ => GeoOutcome.threw) =
      ChatResult.ok "Hej!\n\nSlut" [] := by
  have h := chatParseFailure_keepsText "hej" "key"
    ⟨200, true, some "Hej!\n```places\n[bad json\n```\nSlut"⟩
    (fun _ => none) (fun _ => GeoOutcome.threw)
    "Hej!\n```places\n[bad json\n```\nSlut"
    ("[bad json".data) ("Hej!\n\nSlut".data)
    (by decide) (by decide) (by decide) (by decide) rfl rfl (by decide) rfl
  rw [h]
  rfl

/-- C4: on the successful chat path with a parsed place list, the response carries
the geocode-corrected list in the original order: the i-th returned place is the i-th
extracted place with the geocoder's coordinates when the i-th lookup found a match,
and unchanged when the lookup found nothing or threw; no lookup outcome can fail the
request. -/
theorem chatGeocode_positionwise (m k : String) (up : ChatUpstream)
    (parsePlaces : String → Option (List Place)) (geo : Nat → GeoOutcome)
    (c : String) (body stripped : List Char) (places : List Place)
    (hm : m ≠ "") (hk1 : k ≠ "") (hk2 : k ≠ "your-openrouter-api-key-here")
    (hstatus : (200 ≤ up.status && up.status < 300) = true)
    (hjson : up.jsonOk = true)
    (hc : up.content = some c)
    (hmatch : stripPlacesBlock c.data = some (body, stripped))
    (hparse : parsePlaces (String.mk body) = some places) :
    chatHandler (some m) (some k) up parsePlaces geo =
      ChatResult.ok (String.mk (jsTrim stripped))
        (mapWithIdx (fun i p => correctPlace p (geo i)) 0 places) ∧
    (mapWithIdx (fun i p => correctPlace p (geo i)) 0 places).length =
      places.length ∧
    (∀ (i : Nat) (p : Place) (la lo : Int), places[i]? = some p →
      geo i = GeoOutcome.found la lo →
      (mapWithIdx (fun i p => correctPlace p (geo i)) 0 places)[i]? =
        some { p with lat := la, lon := lo }) ∧
    (∀ (i : Nat) (p : Place), places[i]? = some p → geo i = GeoOutcome.noMatch →
      (mapWithIdx (fun i p => correctPlace p (geo i)) 0 places)[i]? = some p) ∧
    (∀ (i : Nat) (p : Place), places[i]? = some p → geo i = GeoOutcome.threw →
      (mapWithIdx (fun i p => correctPlace p (geo i)) 0 places)[i]? = some p) := by
  refine ⟨?_, length_mapWithIdx _ 0 places, ?_, ?_, ?_⟩
  · rw [chatHandler_blockPath m k up parsePlaces geo c body stripped hm hk1 hk2
      hstatus hjson hc hmatch]
    rw [hparse]
    simp only [Option.getD_some]
    cases places with
    | nil => simp [mapWithIdx]
    | cons p tl => simp
  · intro i p la lo hp hg
    rw [getElem?_mapWithIdx, hp]
    simp [Nat.zero_add, hg, correctPlace]
  · intro i p hp hg
    rw [getElem?_mapWithIdx, hp]
    simp [Nat.zero_add, hg, correctPlace]
  · intro i p hp hg
    rw [getElem?_mapWithIdx, hp]
    simp [Nat.zero_add, hg, correctPlace]

/-- C4, witness: two extracted places; the first lookup finds a match (its
coordinates win), the second throws (model coordinates kept); order is preserved. -/
theorem chatGeocode_positionwise_witness :
    chatHandler (some "hej") (some "key")
      ⟨200, true, some "A\n```places\nP\n```"⟩
      (fun s => if s = "P" then
          some [⟨"Kiruna", 1, 2, "d"⟩, ⟨"Boden", 3, 4, "e"⟩] else none)
      (fun i => if i = 0 then GeoOutcome.found 10 20 else GeoOutcome.threw) =
      ChatResult.ok "A" [⟨"Kiruna", 10, 20, "d"⟩, ⟨"Boden", 3, 4, "e"⟩] ∧
    ([⟨"Kiruna", 1, 2, "d"⟩, ⟨"Boden", 3, 4, "e"⟩] : List Place)[0]? =
      some ⟨"Kiruna", 1, 2, "d"⟩ := by
  have h := chatGeocode_positionwise "hej" "key"
    ⟨200, true, some "A\n```places\nP\n```"⟩
    (fun s => if s = "P" then
        some [⟨"Kiruna", 1, 2, "d"⟩, ⟨"Boden", 3, 4, "e"⟩] else none)
    (fun i => if i = 0 then GeoOutcome.found 10 20 else GeoOutcome.threw)
    "A\n```places\nP\n```" ("P".data) ("A\n".data)
    [⟨"Kiruna", 1, 2, "d"⟩, ⟨"Boden", 3, 4, "e"⟩]
    (by decide) (by decide) (by decide) (by decide) rfl rfl (by decide) (by decide)
  refine ⟨?_, by decide⟩
  rw [h.1]
  rfl

/-- Auxiliary: reduction of the POI handler on a fresh cache hit. -/
theorem poisHandler_hitPath (c bb : String) (cache : PoiCache) (now : Int)
    (up : OverpassResp) (tf : TagFilter) (e : PoiEntry)
    (hcat : objGet POI_CATEGORIES c = some tf)
    (hbb : bb ≠ "")
    (hfound : objGet cache (c ++ ":" ++ bb) = some e)
    (hfresh : now - e.time < POI_CACHE_TTL) :
    poisHandler (some c) (some bb) cache now up = ⟨.ok e.data, cache, 0⟩ := by
  simp [poisHandler, lookupCategory, hcat, hbb, hfound, hfresh]

/-- Auxiliary: reduction of the POI handler on a miss or stale entry with a
successful Overpass response. -/
theorem poisHandler_missPath (c bb : String) (cache : PoiCache) (now : Int)
    (up : OverpassResp) (tf : TagFilter)
    (hcat : objGet POI_CATEGORIES c = some tf)
    (hbb : bb ≠ "")
    (hstale : ∀ e, objGet cache (c ++ ":" ++ bb) = some e →
      POI_CACHE_TTL ≤ now - e.time)
    (hstatus : (200 ≤ up.status && up.status < 300) = true)
    (hjson : up.jsonOk = true) :
    poisHandler (some c) (some bb) cache now up =
      ⟨.ok ((up.elements.getD []).map toPoi),
       if (objSet cache (c ++ ":" ++ bb)
            ⟨now, (up.elements.getD []).map toPoi⟩).length > 200 then
         poiSweep now
           (objSet cache (c ++ ":" ++ bb) ⟨now, (up.elements.getD []).map toPoi⟩)
       else objSet cache (c ++ ":" ++ bb) ⟨now, (up.elements.getD []).map toPoi⟩,
       1⟩ := by
  cases hq : objGet cache (c ++ ":" ++ bb) with
  | none => simp [poisHandler, lookupCategory, hcat, hbb, hq, hstatus, hjson]
  | some e =>
    have hnf : ¬ (now - e.time < POI_CACHE_TTL) := by
      have := hstale e hq
      omega
    simp [poisHandler, lookupCategory, hcat, hbb, hq, hnf, hstatus, hjson]

/-- C8: after a POI insertion, the eviction sweep runs only when the entry count
exceeds 200; it removes exactly the entries whose age exceeds the TTL, every entry
younger than the TTL survives, and when no entry is stale the cache is left intact
even if it holds more than 200 entries. -/
theorem poiEviction_staleness_sweep (c bb : String) (cache : PoiCache) (now : Int)
    (up : OverpassResp) (tf : TagFilter)
    (hcat : objGet POI_CATEGORIES c = some tf)
    (hbb : bb ≠ "")
    (hstale : ∀ e, objGet cache (c ++ ":" ++ bb) = some e →
      POI_CACHE_TTL ≤ now - e.time)
    (hstatus : (200 ≤ up.status && up.status < 300) = true)
    (hjson : up.jsonOk = true) :
    (poisHandler (some c) (some bb) cache now up).cache =
      (if (objSet cache (c ++ ":" ++ bb)
            ⟨now, (up.elements.getD []).map toPoi⟩).length > 200 then
        (objSet cache (c ++ ":" ++ bb)
          ⟨now, (up.elements.getD []).map toPoi⟩).filter
          (fun p => !(now - p.2.time > POI_CACHE_TTL))
      else objSet cache (c ++ ":" ++ bb) ⟨now, (up.elements.getD []).map toPoi⟩) ∧
    (∀ p ∈ objSet cache (c ++ ":" ++ bb) ⟨now, (up.elements.getD []).map toPoi⟩,
      now - p.2.time < POI_CACHE_TTL →
      p ∈ (poisHandler (some c) (some bb) cache now up).cache) ∧
    ((∀ p ∈ objSet cache (c ++ ":" ++ bb) ⟨now, (up.elements.getD []).map toPoi⟩,
        ¬ now - p.2.time > POI_CACHE_TTL) →
      (poisHandler (some c) (some bb) cache now up).cache =
        objSet cache (c ++ ":" ++ bb) ⟨now, (up.elements.getD []).map toPoi⟩) := by
  have hrun := poisHandler_missPath c bb cache now up tf hcat hbb hstale hstatus hjson
  rw [hrun]
  refine ⟨rfl, ?_, ?_⟩
  · intro p hp hfresh
    by_cases hlen : (objSet cache (c ++ ":" ++ bb)
        ⟨now, (up.elements.getD []).map toPoi⟩).length > 200
    · simp only [hlen, if_pos, poiSweep]
      rw [List.mem_filter]
      refine ⟨hp, ?_⟩
      simp only [Bool.not_eq_true']
      rw [decide_eq_false_iff_not]
      omega
    · simpa [hlen] using hp
  · intro hall
    by_cases hlen : (objSet cache (c ++ ":" ++ bb)
        ⟨now, (up.elements.getD []).map toPoi⟩).length > 200
    · simp only [hlen, if_pos, poiSweep]
      rw [List.filter_eq_self]
      intro p hp
      simp only [Bool.not_eq_true']
      rw [decide_eq_false_iff_not]
      exact hall p hp
    · simp [hlen]

/-- C8, witness: a stale entry and a fresh entry plus the new insertion exceed no
threshold here, so the cache is the plain insertion; hypotheses are discharged at a
concrete stale cache. -/
theorem poiEviction_staleness_sweep_witness :
    (poisHandler (some "kafeer") (some "1,2,3,4")
        [("kafeer:9,9,9,9", ⟨0, []⟩)] 4000000 ⟨200, true, some []⟩).cache =
      [("kafeer:9,9,9,9", ⟨0, []⟩), ("kafeer:1,2,3,4", ⟨4000000, []⟩)] := by
  have h := poiEviction_staleness_sweep "kafeer" "1,2,3,4"
    [("kafeer:9,9,9,9", ⟨0, []⟩)] 4000000 ⟨200, true, some []⟩
    ⟨"amenity", "cafe"⟩ (by decide) (by decide)
    (by intro e he; simp [objGet] at he) (by decide) rfl
  rw [h.1]
  rfl

/-- Auxiliary: the GADM step never touches the SCB cache fields. -/
theorem geoStepFn_preserves_scb (st : MergeState) (now : Int) (geoR : GeoResp) :
    (geoStepFn st now geoR).2.1.scbData = st.scbData ∧
    (geoStepFn st now geoR).2.1.scbTs = st.scbTs := by
  unfold geoStepFn geoRefreshStep
  cases hgd : st.geoData with
  | none => split_ifs <;> simp
  | some g => split_ifs <;> simp

/-- Auxiliary: the SCB refresh request count is never zero. -/
theorem refreshScb_calls_pos (meta : ScbMetaResp) (dataR : ScbDataResp) :
    (refreshScb meta dataR).2 ≠ 0 := by
  unfold refreshScb
  cases hf : meta.vars.find? (fun v => v.code = "Region") <;>
    simp only [hf] <;> split_ifs <;> simp

/-- Auxiliary: a POI request whose cache entry is absent or stale always performs
exactly one Overpass request, whatever the upstream answers. -/
theorem poisHandler_calls_of_stale (c bb : String) (cache : PoiCache) (now : Int)
    (up : OverpassResp) (tf : TagFilter)
    (hcat : objGet POI_CATEGORIES c = some tf)
    (hbb : bb ≠ "")
    (hstale : ∀ e, objGet cache (c ++ ":" ++ bb) = some e →
      ¬ now - e.time < POI_CACHE_TTL) :
    (poisHandler (some c) (some bb) cache now up).upstreamCalls = 1 := by
  cases hq : objGet cache (c ++ ":" ++ bb) with
  | none =>
    simp only [poisHandler, lookupCategory, hcat, hbb, if_neg, not_false_iff,
      Option.getD_some, hq]
    split
    · rfl
    · split <;> rfl
  | some e =>
    have hnf := hstale e hq
    simp only [poisHandler, lookupCategory, hcat, hbb, if_neg, not_false_iff,
      Option.getD_some, hq, hnf, Bool.false_eq_true]
    split
    · rfl
    · split <;> rfl

/-- C5: for each backend cache a read is served from the cached value iff
`now - fetchedAt < TTL` at read time, and otherwise the backing source is re-queried
before responding and the cache stores the fresh value with the current timestamp.
Part one covers the POI cache, part two the SCB statistics cache, part three the GADM
boundary cache. -/
theorem cache_ttl_iff :
    (∀ (c bb : String) (cache : PoiCache) (now : Int) (up : OverpassResp)
        (tf : TagFilter) (e : PoiEntry),
      objGet POI_CATEGORIES c = some tf → bb ≠ "" →
      objGet cache (c ++ ":" ++ bb) = some e →
      (((poisHandler (some c) (some bb) cache now up).upstreamCalls = 0) ↔
        now - e.time < POI_CACHE_TTL) ∧
      (now - e.time < POI_CACHE_TTL →
        poisHandler (some c) (some bb) cache now up = ⟨.ok e.data, cache, 0⟩) ∧
      (¬ now - e.time < POI_CACHE_TTL →
        (200 ≤ up.status && up.status < 300) = true → up.jsonOk = true →
        (poisHandler (some c) (some bb) cache now up).upstreamCalls = 1 ∧
        objGet (poisHandler (some c) (some bb) cache now up).cache
            (c ++ ":" ++ bb) =
          some ⟨now, (up.elements.getD []).map toPoi⟩)) ∧
    (∀ (st : MergeState) (now : Int) (meta : ScbMetaResp) (dataR : ScbDataResp)
        (geoR : GeoResp) (d : ScbData),
      st.scbData = some d →
      (((mergeHandler st now meta dataR geoR).scbCalls = 0) ↔
        now - st.scbTs < SCB_TTL) ∧
      (now - st.scbTs < SCB_TTL →
        (mergeHandler st now meta dataR geoR).state.scbData = some d ∧
        (mergeHandler st now meta dataR geoR).state.scbTs = st.scbTs) ∧
      (¬ now - st.scbTs < SCB_TTL →
        ∀ d', (refreshScb meta dataR).1 = Except.ok d' →
          (mergeHandler st now meta dataR geoR).state.scbData = some d' ∧
          (mergeHandler st now meta dataR geoR).state.scbTs = now)) ∧
    (∀ (st : MergeState) (now : Int) (meta : ScbMetaResp) (dataR : ScbDataResp)
        (geoR : GeoResp) (d : ScbData) (g : FeatureCollection),
      st.scbData = some d → now - st.scbTs < SCB_TTL →
      st.geoData = some g →
      (((mergeHandler st now meta dataR geoR).geoCalls = 0) ↔
        now - st.geoTs < GEO_TTL) ∧
      (now - st.geoTs < GEO_TTL →
        mergeHandler st now meta dataR geoR =
          ⟨.ok ⟨"FeatureCollection", mergeFeatures d g⟩, st, 0, 0⟩) ∧
      (¬ now - st.geoTs < GEO_TTL →
        (200 ≤ geoR.status && geoR.status < 300) = true → geoR.jsonOk = true →
        (mergeHandler st now meta dataR geoR).state.geoData = some geoR.body ∧
        (mergeHandler st now meta dataR geoR).state.geoTs = now)) := by
  refine ⟨?_, ?_, ?_⟩
  · -- POI cache
    intro c bb cache now up tf e hcat hbb hfound
    by_cases hfresh : now - e.time < POI_CACHE_TTL
    · have hrun := poisHandler_hitPath c bb cache now up tf e hcat hbb hfound hfresh
      exact ⟨by rw [hrun]; simpa using hfresh, fun _ => hrun,
        fun hnf => absurd hfresh hnf⟩
    · have hcalls := poisHandler_calls_of_stale c bb cache now up tf hcat hbb
        (fun e' he' => by rw [hfound] at he'; cases he'; exact hfresh)
      refine ⟨?_, fun hf => absurd hf hfresh, ?_⟩
      · rw [hcalls]
        simp [hfresh]
      · intro _ hstatus hjson
        have hrun := poisHandler_missPath c bb cache now up tf hcat hbb
          (fun e' he' => by rw [hfound] at he'; cases he'; omega) hstatus hjson
        rw [hrun]
        refine ⟨rfl, ?_⟩
        by_cases hlen : (objSet cache (c ++ ":" ++ bb)
            ⟨now, (up.elements.getD []).map toPoi⟩).length > 200
        · simp only [hlen, if_pos]
          exact objGet_poiSweep_objSet cache (c ++ ":" ++ bb) now _
        · simp only [hlen, if_neg, not_false_iff]
          exact objGet_objSet_self cache (c ++ ":" ++ bb) _
  · -- SCB cache
    intro st now meta dataR geoR d hdata
    by_cases hfresh : now - st.scbTs < SCB_TTL
    · have hscb : scbStepFn st now meta dataR = (Except.ok d, st, 0) := by
        simp [scbStepFn, hdata, hfresh]
      rcases hg : geoStepFn st now geoR with ⟨r2, st2, n2⟩
      have hpres := geoStepFn_preserves_scb st now geoR
      rw [hg] at hpres
      refine ⟨?_, ?_, fun hnf => absurd hfresh hnf⟩
      · cases r2 <;> simp [mergeHandler, hscb, hg, hfresh]
      · intro _
        simp only [Prod.snd, Prod.fst] at hpres
        cases r2 <;> simp [mergeHandler, hscb, hg, hpres.1, hpres.2, hdata]
    · have hscb : scbStepFn st now meta dataR = scbRefreshStep st now meta dataR := by
        simp [scbStepFn, hdata, hfresh]
      rcases hr : refreshScb meta dataR with ⟨r, n⟩
      have hn : n ≠ 0 := by
        have := refreshScb_calls_pos meta dataR
        rw [hr] at this
        exact this
      cases r with
      | error e =>
        have hstep : scbStepFn st now meta dataR = (Except.error e, st, n) := by
          rw [hscb]
          unfold scbRefreshStep
          rw [hr]
        refine ⟨by simp [mergeHandler, hstep, hfresh, hn],
          fun hf => absurd hf hfresh, ?_⟩
        intro _ d' hd'
        have hd2 : (Except.error e : Except String ScbData) = Except.ok d' := hd'
        exact Except.noConfusion hd2
      | ok dfresh =>
        have hstep : scbStepFn st now meta dataR =
            (Except.ok dfresh,
             { st with scbData := some dfresh, scbTs := now }, n) := by
          rw [hscb]
          unfold scbRefreshStep
          rw [hr]
        have hpres := geoStepFn_preserves_scb
          { st with scbData := some dfresh, scbTs := now } now geoR
        rcases hg : geoStepFn { st with scbData := some dfresh, scbTs := now } now geoR
          with ⟨r2, st2, n2⟩
        rw [hg] at hpres
        refine ⟨?_, fun hf => absurd hf hfresh, ?_⟩
        · cases r2 <;> simp [mergeHandler, hstep, hg, hfresh, hn]
        · intro _ d' hd'
          have hd2 : (Except.ok dfresh : Except String ScbData) = Except.ok d' := hd'
          injection hd2 with hh
          subst hh
          simp only [Prod.snd, Prod.fst] at hpres
          cases r2 <;> simp [mergeHandler, hstep, hg, hpres.1, hpres.2]
  · -- GADM cache
    intro st now meta dataR geoR d g hdata hscbFresh hgeo
    have hscb : scbStepFn st now meta dataR = (Except.ok d, st, 0) := by
      simp [scbStepFn, hdata, hscbFresh]
    by_cases hfresh : now - st.geoTs < GEO_TTL
    · have hg : geoStepFn st now geoR = (Except.ok g, st, 0) := by
        simp [geoStepFn, hgeo, hfresh]
      exact ⟨by simp [mergeHandler, hscb, hg, hfresh],
        fun _ => by simp [mergeHandler, hscb, hg],
        fun hnf => absurd hfresh hnf⟩
    · have hg : geoStepFn st now geoR = geoRefreshStep st now geoR := by
        simp [geoStepFn, hgeo, hfresh]
      refine ⟨?_, fun hf => absurd hf hfresh, ?_⟩
      · unfold geoRefreshStep at hg
        by_cases hst : (200 ≤ geoR.status && geoR.status < 300) = true
        · by_cases hj : geoR.jsonOk = true
          · simp only [hst, hj] at hg
            simp [mergeHandler, hscb, hg, hfresh]
          · simp only [Bool.not_eq_true] at hj
            simp only [hst, hj] at hg
            simp [mergeHandler, hscb, hg, hfresh]
        · simp only [Bool.not_eq_true] at hst
          simp only [hst] at hg
          simp [mergeHandler, hscb, hg, hfresh]
      · intro _ hstatus hjson
        unfold geoRefreshStep at hg
        simp only [hstatus, hjson] at hg
        simp [mergeHandler, hscb, hg]

/-- C5, witness: concrete fresh reads of all three caches. -/
theorem cache_ttl_iff_witness :
    poisHandler (some "parker") (some "1,2,3,4")
        [("parker:1,2,3,4", ⟨0, []⟩)] 100 ⟨200, true, some []⟩ =
      ⟨.ok [], [("parker:1,2,3,4", ⟨0, []⟩)], 0⟩ ∧
    (mergeHandler ⟨some ⟨[], []⟩, 0, some ⟨"FC", []⟩, 0⟩ 100 ⟨200, true, []⟩
        ⟨200, true, some []⟩ ⟨200, true, ⟨"FC", []⟩⟩).state.scbData =
      some ⟨[], []⟩ ∧
    mergeHandler ⟨some ⟨[], []⟩, 0, some ⟨"FC", []⟩, 0⟩ 100 ⟨200, true, []⟩
        ⟨200, true, some []⟩ ⟨200, true, ⟨"FC", []⟩⟩ =
      ⟨.ok ⟨"FeatureCollection", mergeFeatures ⟨[], []⟩ ⟨"FC", []⟩⟩,
       ⟨some ⟨[], []⟩, 0, some ⟨"FC", []⟩, 0⟩, 0, 0⟩ := by
  have h1 := (cache_ttl_iff.1 "parker" "1,2,3,4" [("parker:1,2,3,4", ⟨0, []⟩)] 100
    ⟨200, true, some []⟩ ⟨"leisure", "park"⟩ ⟨0, []⟩ (by decide) (by decide)
    (by decide)).2.1 (by decide)
  have h2 := (cache_ttl_iff.2.1 ⟨some ⟨[], []⟩, 0, some ⟨"FC", []⟩, 0⟩ 100
    ⟨200, true, []⟩ ⟨200, true, some []⟩ ⟨200, true, ⟨"FC", []⟩⟩ ⟨[], []⟩
    rfl).2.1 (by decide)
  have h3 := (cache_ttl_iff.2.2 ⟨some ⟨[], []⟩, 0, some ⟨"FC", []⟩, 0⟩ 100
    ⟨200, true, []⟩ ⟨200, true, some []⟩ ⟨200, true, ⟨"FC", []⟩⟩ ⟨[], []⟩
    ⟨"FC", []⟩ rfl (by decide) rfl).2.1 (by decide)
  exact ⟨h1, h2.1, h3⟩

/-- Auxiliary: a successful SCB step leaves the fetched data in the cache state. -/
theorem scbStepFn_ok_state (st : MergeState) (now : Int) (meta : ScbMetaResp)
    (dataR : ScbDataResp) (d : ScbData) (st1 : MergeState) (n1 : Nat)
    (h : scbStepFn st now meta dataR = (Except.ok d, st1, n1)) :
    st1.scbData = some d := by
  unfold scbStepFn scbRefreshStep at h
  cases hgd : st.scbData with
  | some d0 =>
    simp only [hgd] at h
    by_cases hf : now - st.scbTs < SCB_TTL
    · rw [if_pos hf] at h
      simp only [Prod.mk.injEq] at h
      obtain ⟨ha, hb, _⟩ := h
      injection ha with ha
      rw [← hb, hgd, ha]
    · rw [if_neg hf] at h
      rcases hr : refreshScb meta dataR with ⟨r, n⟩
      simp only [hr] at h
      cases r with
      | error e => simp at h
      | ok dd =>
        simp only [Prod.mk.injEq] at h
        obtain ⟨ha, hb, _⟩ := h
        injection ha with ha
        rw [← hb]
        simp [ha]
  | none =>
    simp only [hgd] at h
    rcases hr : refreshScb meta dataR with ⟨r, n⟩
    simp only [hr] at h
    cases r with
    | error e => simp at h
    | ok dd =>
      simp only [Prod.mk.injEq] at h
      obtain ⟨ha, hb, _⟩ := h
      injection ha with ha
      rw [← hb]
      simp [ha]

/-- Auxiliary: a successful GADM step leaves the fetched collection in the cache
state. -/
theorem geoStepFn_ok_state (st : MergeState) (now : Int) (geoR : GeoResp)
    (g : FeatureCollection) (st2 : MergeState) (n2 : Nat)
    (h : geoStepFn st now geoR = (Except.ok g, st2, n2)) :
    st2.geoData = some g := by
  unfold geoStepFn geoRefreshStep at h
  cases hgd : st.geoData with
  | some g0 =>
    simp only [hgd] at h
    by_cases hf : now - st.geoTs < GEO_TTL
    · rw [if_pos hf] at h
      simp only [Prod.mk.injEq] at h
      obtain ⟨ha, hb, _⟩ := h
      injection ha with ha
      rw [← hb, hgd, ha]
    · rw [if_neg hf] at h
      split_ifs at h <;> simp only [Prod.mk.injEq] at h
      · exact absurd h.1 (by simp)
      · exact absurd h.1 (by simp)
      · obtain ⟨ha, hb, _⟩ := h
        injection ha with ha
        rw [← hb]
        simp [ha]
  | none =>
    simp only [hgd] at h
    split_ifs at h <;> simp only [Prod.mk.injEq] at h
    · exact absurd h.1 (by simp)
    · exact absurd h.1 (by simp)
    · obtain ⟨ha, hb, _⟩ := h
      injection ha with ha
      rw [← hb]
      simp [ha]

/-- Auxiliary: any successful merge response is the merge of the two collections that
the resulting cache state holds. -/
theorem mergeHandler_ok_shape (st : MergeState) (now : Int) (meta : ScbMetaResp)
    (dataR : ScbDataResp) (geoR : GeoResp) (fc : FeatureCollection)
    (h : (mergeHandler st now meta dataR geoR).result = MergeResult.ok fc) :
    ∃ dd gg, (mergeHandler st now meta dataR geoR).state.scbData = some dd ∧
      (mergeHandler st now meta dataR geoR).state.geoData = some gg ∧
      fc = ⟨"FeatureCollection", mergeFeatures dd gg⟩ := by
  rcases hs : scbStepFn st now meta dataR with ⟨r1, st1, n1⟩
  cases r1 with
  | error e => simp [mergeHandler, hs] at h
  | ok d =>
    rcases hgm : geoStepFn st1 now geoR with ⟨r2, st2, n2⟩
    cases r2 with
    | error e => simp [mergeHandler, hs, hgm] at h
    | ok g =>
      have hres : (mergeHandler st now meta dataR geoR).result =
          MergeResult.ok ⟨"FeatureCollection", mergeFeatures d g⟩ := by
        simp [mergeHandler, hs, hgm]
      have hst : (mergeHandler st now meta dataR geoR).state = st2 := by
        simp [mergeHandler, hs, hgm]
      rw [hres] at h
      injection h with h
      have hscb1 : st1.scbData = some d := scbStepFn_ok_state st now meta dataR d st1 n1 hs
      have hgeo2 : st2.geoData = some g := geoStepFn_ok_state st1 now geoR g st2 n2 hgm
      have hpres := geoStepFn_preserves_scb st1 now geoR
      rw [hgm] at hpres
      simp only [Prod.snd, Prod.fst] at hpres
      exact ⟨d, g, by rw [hst, hpres.1, hscb1], by rw [hst, hgeo2], h.symm⟩

/-- Auxiliary: when both caches hold fresh data, the merge handler answers from them
with no upstream request and an unchanged state. -/
theorem mergeHandler_cached (st : MergeState) (now : Int) (meta : ScbMetaResp)
    (dataR : ScbDataResp) (geoR : GeoResp) (dd : ScbData) (gg : FeatureCollection)
    (hscb : st.scbData = some dd) (hsf : now - st.scbTs < SCB_TTL)
    (hgeo : st.geoData = some gg) (hgf : now - st.geoTs < GEO_TTL) :
    mergeHandler st now meta dataR geoR =
      ⟨.ok ⟨"FeatureCollection", mergeFeatures dd gg⟩, st, 0, 0⟩ := by
  have h1 : scbStepFn st now meta dataR = (Except.ok dd, st, 0) := by
    simp [scbStepFn, hscb, hsf]
  have h2 : geoStepFn st now geoR = (Except.ok gg, st, 0) := by
    simp [geoStepFn, hgeo, hgf]
  simp [mergeHandler, h1, h2]

/-- C9: a second statistics-merge invocation made while both the statistics TTL and
the boundary TTL are still unexpired returns the identical response value, performs
zero upstream calls, and leaves the cache state unchanged, for any responses the
upstreams would have given. -/
theorem mergeIdempotent_within_ttl (st : MergeState) (t1 t2 : Int)
    (m1 : ScbMetaResp) (d1 : ScbDataResp) (g1 : GeoResp)
    (m2 : ScbMetaResp) (d2 : ScbDataResp) (g2 : GeoResp) (fc : FeatureCollection)
    (h1 : (mergeHandler st t1 m1 d1 g1).result = MergeResult.ok fc)
    (hscb : t2 - (mergeHandler st t1 m1 d1 g1).state.scbTs < SCB_TTL)
    (hgeo : t2 - (mergeHandler st t1 m1 d1 g1).state.geoTs < GEO_TTL) :
    mergeHandler (mergeHandler st t1 m1 d1 g1).state t2 m2 d2 g2 =
      ⟨.ok fc, (mergeHandler st t1 m1 d1 g1).state, 0, 0⟩ := by
  obtain ⟨dd, gg, hsd, hgd, hfc⟩ := mergeHandler_ok_shape st t1 m1 d1 g1 fc h1
  rw [hfc]
  exact mergeHandler_cached _ t2 m2 d2 g2 dd gg hsd hscb hgd hgeo

/-- C9, witness: a first run that fills both caches at time 0, repeated at time 5
against upstreams that would now fail; the cached answer is returned unchanged with
zero upstream calls. -/
theorem mergeIdempotent_within_ttl_witness :
    mergeHandler (mergeHandler ⟨none, 0, none, 0⟩ 0 ⟨200, true, [⟨"Region", [], []⟩]⟩
        ⟨200, true, some []⟩ ⟨200, true, ⟨"FC", []⟩⟩).state 5
        ⟨500, false, []⟩ ⟨500, false, none⟩ ⟨500, false, ⟨"X", []⟩⟩ =
      ⟨.ok ⟨"FeatureCollection", []⟩,
       (mergeHandler ⟨none, 0, none, 0⟩ 0 ⟨200, true, [⟨"Region", [], []⟩]⟩
        ⟨200, true, some []⟩ ⟨200, true, ⟨"FC", []⟩⟩).state, 0, 0⟩ :=
  mergeIdempotent_within_ttl ⟨none, 0, none, 0⟩ 0 5
    ⟨200, true, [⟨"Region", [], []⟩]⟩ ⟨200, true, some []⟩ ⟨200, true, ⟨"FC", []⟩⟩
    ⟨500, false, []⟩ ⟨500, false, none⟩ ⟨500, false, ⟨"X", []⟩⟩
    ⟨"FeatureCollection", []⟩ (by decide) (by decide) (by decide)

/-- Auxiliary: the `kod` property of a merged feature encodes the resolved code. -/
theorem mergeFeature_kod_prop (nameToKod nameLower : Obj String)
    (kodToValue : Obj Int) (f : Feature) :
    objGet (mergeFeature nameToKod nameLower kodToValue f).properties "kod" =
      some (optStrVal (resolveKod nameToKod nameLower (propNAME2 f))) := by
  unfold mergeFeature
  simp only []
  rw [objGet_objSet_ne _ _ _ _ (by decide)]
  exact objGet_objSet_self _ _ _

/-- Auxiliary: the `sysselsattning` property of a merged feature encodes the value
found under the resolved code. -/
theorem mergeFeature_syss_prop (nameToKod nameLower : Obj String)
    (kodToValue : Obj Int) (f : Feature) :
    objGet (mergeFeature nameToKod nameLower kodToValue f).properties
        "sysselsattning" =
      some (optIntVal
        (Option.bind (resolveKod nameToKod nameLower (propNAME2 f))
          (fun k => objGet kodToValue k))) := by
  unfold mergeFeature
  simp only []
  rw [objGet_objSet_self]
  cases resolveKod nameToKod nameLower (propNAME2 f) <;> rfl

/-- C2: the merge keeps exactly the municipality-level features, in order; each
feature's name is resolved against the statistics mapping by exact match first, then
case-insensitively; a feature matching neither way is still present, carrying
`kod: null` and `sysselsattning: null`. -/
theorem statisticsMerge_matching (d : ScbData) (geo : FeatureCollection) :
    (mergeFeatures d geo).length = (geo.features.filter isMunicipality).length ∧
    ∀ f ∈ geo.features.filter isMunicipality,
      mergeFeature d.nameToKod (buildNameLower d.nameToKod) d.kodToValue f ∈
        mergeFeatures d geo ∧
      (∀ k, objGet d.nameToKod (propNAME2 f) = some k → k ≠ "" →
        objGet (mergeFeature d.nameToKod (buildNameLower d.nameToKod) d.kodToValue
            f).properties "kod" = some (JsVal.str k)) ∧
      (objGet d.nameToKod (propNAME2 f) = none →
        ∀ k, objGet (buildNameLower d.nameToKod) (jsToLower (propNAME2 f)) = some k →
          k ≠ "" →
          objGet (mergeFeature d.nameToKod (buildNameLower d.nameToKod) d.kodToValue
              f).properties "kod" = some (JsVal.str k)) ∧
      (objGet d.nameToKod (propNAME2 f) = none →
        objGet (buildNameLower d.nameToKod) (jsToLower (propNAME2 f)) = none →
        objGet (mergeFeature d.nameToKod (buildNameLower d.nameToKod) d.kodToValue
            f).properties "kod" = some JsVal.null ∧
        objGet (mergeFeature d.nameToKod (buildNameLower d.nameToKod) d.kodToValue
            f).properties "sysselsattning" = some JsVal.null) := by
  refine ⟨by simp [mergeFeatures], ?_⟩
  intro f hf
  refine ⟨?_, ?_, ?_, ?_⟩
  · unfold mergeFeatures
    exact List.mem_map_of_mem _ hf
  · intro k hexact hk
    rw [mergeFeature_kod_prop]
    unfold resolveKod
    rw [hexact]
    simp [jsOrStr, hk, optStrVal]
  · intro hnone k hci hk
    rw [mergeFeature_kod_prop]
    unfold resolveKod
    rw [hnone, hci]
    simp [jsOrStr, hk, optStrVal]
  · intro hnone hci
    constructor
    · rw [mergeFeature_kod_prop]
      unfold resolveKod
      rw [hnone, hci]
      simp [jsOrStr, optStrVal]
    · rw [mergeFeature_syss_prop]
      unfold resolveKod
      rw [hnone, hci]
      simp [jsOrStr, optIntVal]

/-- C2, witness: the statistics mapping holds `"malmö"`; the boundary feature named
`"Malmö"` resolves through the case-insensitive fallback and gets that code; the
feature named `"Nowhere"` matches neither way yet stays in the output with nulls;
a non-municipality feature is filtered, leaving two output features. -/
theorem statisticsMerge_matching_witness :
    (mergeFeatures ⟨[("malmö", "1280")], [("1280", 77)]⟩
      ⟨"FC", [⟨"Feature", "g1",
               [("NAME_2", JsVal.str "Malmö"), ("ENGTYPE_2", JsVal.str "Municipality")]⟩,
              ⟨"Feature", "g2",
               [("NAME_2", JsVal.str "Nowhere"), ("ENGTYPE_2", JsVal.str "Municipality")]⟩,
              ⟨"Feature", "g3", [("ENGTYPE_2", JsVal.str "Water body")]⟩]⟩).length = 2 ∧
    objGet (mergeFeature [("malmö", "1280")] (buildNameLower [("malmö", "1280")])
        [("1280", 77)]
        ⟨"Feature", "g1",
         [("NAME_2", JsVal.str "Malmö"), ("ENGTYPE_2", JsVal.str "Municipality")]⟩).properties
      "kod" = some (JsVal.str "1280") ∧
    objGet (mergeFeature [("malmö", "1280")] (buildNameLower [("malmö", "1280")])
        [("1280", 77)]
        ⟨"Feature", "g2",
         [("NAME_2", JsVal.str "Nowhere"), ("ENGTYPE_2", JsVal.str "Municipality")]⟩).properties
      "kod" = some JsVal.null ∧
    objGet (mergeFeature [("malmö", "1280")] (buildNameLower [("malmö", "1280")])
        [("1280", 77)]
        ⟨"Feature", "g2",
         [("NAME_2", JsVal.str "Nowhere"), ("ENGTYPE_2", JsVal.str "Municipality")]⟩).properties
      "sysselsattning" = some JsVal.null := by
  have h := statisticsMerge_matching ⟨[("malmö", "1280")], [("1280", 77)]⟩
    ⟨"FC", [⟨"Feature", "g1",
             [("NAME_2", JsVal.str "Malmö"), ("ENGTYPE_2", JsVal.str "Municipality")]⟩,
            ⟨"Feature", "g2",
             [("NAME_2", JsVal.str "Nowhere"), ("ENGTYPE_2", JsVal.str "Municipality")]⟩,
            ⟨"Feature", "g3", [("ENGTYPE_2", JsVal.str "Water body")]⟩]⟩
  have h1 := h.2 ⟨"Feature", "g1",
      [("NAME_2", JsVal.str "Malmö"), ("ENGTYPE_2", JsVal.str "Municipality")]⟩
    (by decide)
  have h2 := h.2 ⟨"Feature", "g2",
      [("NAME_2", JsVal.str "Nowhere"), ("ENGTYPE_2", JsVal.str "Municipality")]⟩
    (by decide)
  refine ⟨by rw [h.1]; decide, ?_, ?_, ?_⟩
  · exact h1.2.2.1 (by decide) "1280" (by decide) (by decide)
  · exact (h2.2.2.2 (by decide) (by decide)).1
  · exact (h2.2.2.2 (by decide) (by decide)).2

/-- C10: every merged feature keeps its geometry, its `type` and every original
property unchanged; only the keys `kod` and `sysselsattning` are written (present in
every output feature), and the output is exactly the per-feature merge of the
filtered input. -/
theorem merge_frame_preservation (d : ScbData) (geo : FeatureCollection) :
    mergeFeatures d geo = (geo.features.filter isMunicipality).map
      (mergeFeature d.nameToKod (buildNameLower d.nameToKod) d.kodToValue) ∧
    ∀ f : Feature,
      (mergeFeature d.nameToKod (buildNameLower d.nameToKod) d.kodToValue
          f).geometry = f.geometry ∧
      (mergeFeature d.nameToKod (buildNameLower d.nameToKod) d.kodToValue
          f).ftype = f.ftype ∧
      (∀ k : String, k ≠ "kod" → k ≠ "sysselsattning" →
        objGet (mergeFeature d.nameToKod (buildNameLower d.nameToKod) d.kodToValue
            f).properties k = objGet f.properties k) ∧
      (objGet (mergeFeature d.nameToKod (buildNameLower d.nameToKod) d.kodToValue
          f).properties "kod").isSome = true ∧
      (objGet (mergeFeature d.nameToKod (buildNameLower d.nameToKod) d.kodToValue
          f).properties "sysselsattning").isSome = true := by
  refine ⟨rfl, ?_⟩
  intro f
  refine ⟨rfl, rfl, ?_, ?_, ?_⟩
  · intro k hk1 hk2
    unfold mergeFeature
    simp only []
    rw [objGet_objSet_ne _ _ _ _ hk2, objGet_objSet_ne _ _ _ _ hk1]
  · rw [mergeFeature_kod_prop]
    rfl
  · rw [mergeFeature_syss_prop]
    rfl

/-- C10, witness: the Malmö feature keeps its geometry and its `NAME_2` property and
gains the two statistics keys. -/
theorem merge_frame_preservation_witness :
    (mergeFeature [("malmö", "1280")] (buildNameLower [("malmö", "1280")])
        [("1280", 77)]
        ⟨"Feature", "g1",
         [("NAME_2", JsVal.str "Malmö"), ("ENGTYPE_2", JsVal.str "Municipality")]⟩).geometry
      = "g1" ∧
    objGet (mergeFeature [("malmö", "1280")] (buildNameLower [("malmö", "1280")])
        [("1280", 77)]
        ⟨"Feature", "g1",
         [("NAME_2", JsVal.str "Malmö"), ("ENGTYPE_2", JsVal.str "Municipality")]⟩).properties
      "NAME_2" = some (JsVal.str "Malmö") := by
  have h := (merge_frame_preservation ⟨[("malmö", "1280")], [("1280", 77)]⟩
    ⟨"FC", []⟩).2 ⟨"Feature", "g1",
      [("NAME_2", JsVal.str "Malmö"), ("ENGTYPE_2", JsVal.str "Municipality")]⟩
  refine ⟨h.1, ?_⟩
  rw [h.2.2.1 "NAME_2" (by decide) (by decide)]
  decide
